import Mathlib

/-!
Verification of the Data Quality Validation Engine of the healthcare
supply-chain ETL pipeline (`src/etl/validation/data_quality.py`) and its
orchestration boundary (`dags/data_quality_dag.py`).

Shallow embedding conventions:
* A pandas `DataFrame` is a list of named columns, each a list of cells.
* A cell is either null (NaN/None), a numeric value (modelled as `ℚ`),
  a plain string, or a date.  `pd.to_datetime` is modelled by `parseDate`:
  date cells parse to their ordinal, nulls parse to `NaT` (which compares
  `false` against everything, as in pandas), numeric cells parse as epoch
  values, and plain strings are the unparseable ("garbage") cells.
* Exceptions are modelled with `Except PyError`: pandas parse errors
  (`pd.to_datetime(..., errors='raise')` on garbage), Python's
  `ZeroDivisionError` (int `0 / 0`), `KeyError` (`df[col]` on a missing
  column) and the orchestrator's `ValueError`.
* Each commented rule block of the source check methods (one
  `if 'col' in df.columns:` guard plus its verdict) is embedded as one
  named rule function; the check methods compose their blocks in source
  order.
* Timestamps in check results and summaries are wall-clock side data and
  are not modelled.  Float formatting of percentages inside log messages
  (`{pct:.2f}`) is elided from the message strings; counts are kept.
* `round(x, 2)` is modelled by `round2` over `ℚ`; for the success rates
  arising here (fractions with denominator ≤ 13) half-way cases never
  occur, so the difference between half-even and half-up is immaterial.
-/

/-- One cell of a dataframe column. -/
inductive Cell where
  | null
  | num (q : ℚ)
  | str (s : String)
  | date (d : Int)
  deriving DecidableEq, Repr

/-- A dataframe: ordered named columns of cells. -/
structure DataFrame where
  cols : List (String × List Cell)
  deriving DecidableEq, Repr

/-- Column lookup: `df[name]` / `name in df.columns`. -/
def DataFrame.getCol (df : DataFrame) (name : String) : Option (List Cell) :=
  (df.cols.find? (fun p => p.1 = name)).map Prod.snd

/-- `len(df)`: the row count (length of the first column; columns are uniform). -/
def DataFrame.nRows (df : DataFrame) : Nat :=
  match df.cols with
  | [] => 0
  | (_, l) :: _ => l.length

/-- `cell < q` elementwise (pandas semantics: NaN and non-numeric compare false). -/
def cellLtNum (c : Cell) (q : ℚ) : Bool :=
  match c with
  | Cell.num v => v < q
  | _ => false

/-- `cell > q` elementwise. -/
def cellGtNum (c : Cell) (q : ℚ) : Bool :=
  match c with
  | Cell.num v => q < v
  | _ => false

/-- `cell == q` elementwise. -/
def cellEqNum (c : Cell) (q : ℚ) : Bool :=
  match c with
  | Cell.num v => v = q
  | _ => false

/-- `pd.to_datetime` on one cell: `none` = parse error (raises), `some none` = NaT. -/
def parseDate : Cell → Option (Option Int)
  | Cell.null => some none
  | Cell.num q => some (some q.floor)
  | Cell.str _ => none
  | Cell.date d => some (some d)

/-- Timestamp `≤` with pandas NaT semantics: any comparison with NaT is false. -/
def dateLE (a b : Option Int) : Bool :=
  match a, b with
  | some x, some y => x ≤ y
  | _, _ => false

/-- `series.isnull().sum()`. -/
def nullCount (l : List Cell) : Nat :=
  (l.filter (fun c => c == Cell.null)).length

/-- `(series < 0).sum()`. -/
def negCount (l : List Cell) : Nat :=
  (l.filter (fun c => cellLtNum c 0)).length

/-- `((series == 0) | (series > bound)).sum()`. -/
def suspiciousCount (bound : ℚ) (l : List Cell) : Nat :=
  (l.filter (fun c => cellEqNum c 0 || cellGtNum c bound)).length

/-- `((series < lo) | (series > hi)).sum()`. -/
def outOfRangeCount (lo hi : ℚ) (l : List Cell) : Nat :=
  (l.filter (fun c => cellLtNum c lo || cellGtNum c hi)).length

/-- `series.duplicated().sum()`: number of non-first occurrences. -/
def dupCount {α : Type} [DecidableEq α] (l : List α) : Nat :=
  l.length - l.dedup.length

/-- The standardized warehouse values (`valid_warehouses`). -/
def valid_warehouses : List String :=
  ["Warehouse A", "Warehouse B", "Warehouse C", "Unknown"]

/-- `series.isin(valid_warehouses)` elementwise (non-strings are not members). -/
def cellInWarehouses (c : Cell) : Bool :=
  match c with
  | Cell.str s => s ∈ valid_warehouses
  | _ => false

/-- `(~series.isin(valid_warehouses)).sum()`. -/
def nonStdWarehouseCount (l : List Cell) : Nat :=
  (l.filter (fun c => !(cellInWarehouses c))).length

/-- `(expiry <= manufacture).sum()` over parsed date columns. -/
def expiryLeManufactureCount (pe pm : List (Option Int)) : Nat :=
  ((pe.zip pm).filter (fun p => dateLE p.1 p.2)).length

/-- Status of one check result. -/
inductive Status where
  | PASS
  | FAIL
  | WARN
  deriving DecidableEq, Repr

/-- One entry of `self.results` (timestamp elided). -/
structure CheckResult where
  status : Status
  message : String
  deriving DecidableEq, Repr

/-- The mutable state of a `DataQualityChecker` instance. -/
structure CheckerState where
  checks_passed : Nat
  checks_failed : Nat
  results : List CheckResult
  deriving DecidableEq, Repr

/-- The state of a freshly constructed `DataQualityChecker`. -/
def initState : CheckerState :=
  { checks_passed := 0, checks_failed := 0, results := [] }

/-- Exceptions that can escape the Python code. -/
inductive PyError where
  | typeOrParseError
  | zeroDivisionError
  | keyError
  | valueError
  deriving DecidableEq, Repr

/-- `DataQualityChecker._log_check`: append a result and bump the counter;
WARN counts toward `checks_passed` ("Count as pass but flag"). -/
def _log_check (st : CheckerState) (status : Status) (message : String) :
    CheckerState :=
  let st := { st with results := st.results ++ [CheckResult.mk status message] }
  match status with
  | Status.PASS => { st with checks_passed := st.checks_passed + 1 }
  | Status.FAIL => { st with checks_failed := st.checks_failed + 1 }
  | Status.WARN => { st with checks_passed := st.checks_passed + 1 }

/-- The `critical_columns` list of `_check_completeness`. -/
def critical_columns : List String :=
  ["product_id", "product_name", "quantity", "batch_number"]

/-- Body of the `for col in critical_columns` loop of `_check_completeness`. -/
def completenessStep (df : DataFrame) (st : CheckerState) (col : String) :
    CheckerState :=
  match df.getCol col with
  | none => st
  | some l =>
      let nc := nullCount l
      if nc = 0 then
        _log_check st Status.PASS ("Completeness: " ++ col ++ " has no null values")
      else
        _log_check st Status.FAIL
          ("Completeness: " ++ col ++ " has " ++ toString nc ++ " nulls")

/-- `DataQualityChecker._check_completeness`. -/
def _check_completeness (st : CheckerState) (df : DataFrame) : CheckerState :=
  critical_columns.foldl (completenessStep df) st

/-- "Check batch numbers" block of `_check_uniqueness`. -/
def batchUniqueRule (df : DataFrame) (st : CheckerState) : CheckerState :=
  match df.getCol "batch_number" with
  | none => st
  | some l =>
      let d := dupCount l
      if d = 0 then
        _log_check st Status.PASS "Uniqueness: No duplicate batch numbers"
      else
        _log_check st Status.FAIL
          ("Uniqueness: " ++ toString d ++ " duplicate batch numbers found")

/-- "Check product_id + batch_number combination" block of `_check_uniqueness`. -/
def productBatchUniqueRule (df : DataFrame) (st : CheckerState) : CheckerState :=
  match df.getCol "product_id", df.getCol "batch_number" with
  | some l1, some l2 =>
      let d := dupCount (l1.zip l2)
      if d = 0 then
        _log_check st Status.PASS "Uniqueness: No duplicate product-batch combinations"
      else
        _log_check st Status.FAIL
          ("Uniqueness: " ++ toString d ++ " duplicate combinations")
  | _, _ => st

/-- `DataQualityChecker._check_uniqueness`. -/
def _check_uniqueness (st : CheckerState) (df : DataFrame) : CheckerState :=
  productBatchUniqueRule df (batchUniqueRule df st)

/-- "Check quantity is positive" block of `_check_validity`. -/
def quantityNonNegRule (df : DataFrame) (st : CheckerState) : CheckerState :=
  match df.getCol "quantity" with
  | none => st
  | some l =>
      let invalid := negCount l
      if invalid = 0 then
        _log_check st Status.PASS "Validity: All quantities are non-negative"
      else
        _log_check st Status.FAIL
          ("Validity: " ++ toString invalid ++ " negative quantities found")

/-- "Check unit_price is positive" block of `_check_validity`. -/
def priceNonNegRule (df : DataFrame) (st : CheckerState) : CheckerState :=
  match df.getCol "unit_price" with
  | none => st
  | some l =>
      let invalid := negCount l
      if invalid = 0 then
        _log_check st Status.PASS "Validity: All unit prices are non-negative"
      else
        _log_check st Status.FAIL
          ("Validity: " ++ toString invalid ++ " negative prices found")

/-- "Check date formats" block of `_check_validity`: the
`pd.to_datetime(..., errors='raise')` call sits inside try/except, so a
parse failure degrades to a FAIL verdict here. -/
def expiryParseRule (df : DataFrame) (st : CheckerState) : CheckerState :=
  match df.getCol "expiry_date" with
  | none => st
  | some l =>
      match l.mapM parseDate with
      | some _ => _log_check st Status.PASS "Validity: All expiry dates are valid"
      | none => _log_check st Status.FAIL "Validity: Invalid expiry date format found"

/-- `DataQualityChecker._check_validity`. -/
def _check_validity (st : CheckerState) (df : DataFrame) : CheckerState :=
  expiryParseRule df (priceNonNegRule df (quantityNonNegRule df st))

/-- "Check expiry > manufacture date" block of `_check_consistency`.
Both `pd.to_datetime` calls are UNGUARDED (no try/except), so an
unparseable cell raises and the error escapes (`Except.error`).  The
`df.copy()` of the source only shields the caller's frame from mutation;
the embedding is pure, so no copy is needed. -/
def expiryOrderRule (df : DataFrame) (st : CheckerState) :
    Except PyError CheckerState :=
  match df.getCol "expiry_date", df.getCol "manufacture_date" with
  | some le, some lm =>
      match le.mapM parseDate, lm.mapM parseDate with
      | some pe, some pm =>
          let invalid := expiryLeManufactureCount pe pm
          if invalid = 0 then
            Except.ok (_log_check st Status.PASS
              "Consistency: All expiry dates > manufacture dates")
          else
            Except.ok (_log_check st Status.FAIL
              ("Consistency: " ++ toString invalid ++ " records with expiry <= manufacture"))
      | _, _ => Except.error PyError.typeOrParseError
  | _, _ => Except.ok st

/-- "Check warehouse locations are standardized" block of
`_check_consistency`: WARN, not FAIL, on a membership violation. -/
def warehouseRule (df : DataFrame) (st : CheckerState) : CheckerState :=
  match df.getCol "warehouse_location" with
  | none => st
  | some l =>
      let invalid := nonStdWarehouseCount l
      if invalid = 0 then
        _log_check st Status.PASS "Consistency: All warehouse locations are valid"
      else
        _log_check st Status.WARN
          ("Consistency: " ++ toString invalid ++ " non-standard warehouse locations")

/-- `DataQualityChecker._check_consistency`. -/
def _check_consistency (st : CheckerState) (df : DataFrame) :
    Except PyError CheckerState :=
  match expiryOrderRule df st with
  | Except.error e => Except.error e
  | Except.ok st => Except.ok (warehouseRule df st)

/-- "Check quantity ranges" block of `_check_accuracy`: PASS or WARN only. -/
def quantityRangeRule (df : DataFrame) (st : CheckerState) : CheckerState :=
  match df.getCol "quantity" with
  | none => st
  | some l =>
      let suspicious := suspiciousCount 1000000 l
      if suspicious = 0 then
        _log_check st Status.PASS "Accuracy: All quantities are in reasonable range"
      else
        _log_check st Status.WARN
          ("Accuracy: " ++ toString suspicious ++ " quantities are suspicious (0 or >1M)")

/-- "Check price ranges" block of `_check_accuracy`: PASS or WARN only. -/
def priceRangeRule (df : DataFrame) (st : CheckerState) : CheckerState :=
  match df.getCol "unit_price" with
  | none => st
  | some l =>
      let suspicious := suspiciousCount 100000 l
      if suspicious = 0 then
        _log_check st Status.PASS "Accuracy: All prices are in reasonable range"
      else
        _log_check st Status.WARN
          ("Accuracy: " ++ toString suspicious ++ " prices are suspicious (0 or >100k)")

/-- `DataQualityChecker._check_accuracy`. -/
def _check_accuracy (st : CheckerState) (df : DataFrame) : CheckerState :=
  priceRangeRule df (quantityRangeRule df st)

/-- `round(x, 2)` of Python, over `ℚ`. -/
def round2 (q : ℚ) : ℚ :=
  ((⌊q * 100 + 1 / 2⌋ : ℤ) : ℚ) / 100

/-- The fixed check battery of `validate_all` (lines 22–31): the instance
state is reset, then the five check methods run in order.  The
consistency check can raise, aborting the battery. -/
def runBattery (df : DataFrame) : Except PyError CheckerState :=
  let st := initState
  let st := _check_completeness st df
  let st := _check_uniqueness st df
  let st := _check_validity st df
  match _check_consistency st df with
  | Except.error e => Except.error e
  | Except.ok st => Except.ok (_check_accuracy st df)

/-- The validation summary returned by `validate_all` (timestamp elided). -/
structure Summary where
  total_checks : Nat
  passed : Nat
  failed : Nat
  success_rate : ℚ
  status : String
  details : List CheckResult
  deriving DecidableEq, Repr

/-- `DataQualityChecker.validate_all`.  Takes the instance state `st₀`
(which it immediately resets, per lines 22–24), runs the battery, and
aggregates.  When zero checks ran, `checks_passed / 0` on Python ints
raises `ZeroDivisionError`.  The `status` field is computed from the
un-rounded rate; the `success_rate` field is the rounded one. -/
def validate_all (_st₀ : CheckerState) (df : DataFrame) :
    Except PyError Summary :=
  match runBattery df with
  | Except.error e => Except.error e
  | Except.ok st =>
      let total := st.checks_passed + st.checks_failed
      if total = 0 then Except.error PyError.zeroDivisionError
      else
        let rate : ℚ := ((st.checks_passed : ℚ) / (total : ℚ)) * 100
        Except.ok
          { total_checks := total
            passed := st.checks_passed
            failed := st.checks_failed
            success_rate := round2 rate
            status := if (95 : ℚ) ≤ rate then "PASS" else "FAIL"
            details := st.results }

/-- One expectation result of the `GreatExpectationsValidator`.  The
`unexpected_percent` of the not-null expectation and the `kwargs` bounds of
the range expectation are dead reporting data (no consumer reads them) and
are elided. -/
structure Expectation where
  expectation_type : String
  column : String
  success : Bool
  element_count : Nat
  unexpected_count : Nat
  deriving DecidableEq, Repr

/-- `GreatExpectationsValidator._expect_column_values_to_not_be_null`.
`df[column]` raises `KeyError` when the column is absent. -/
def _expect_column_values_to_not_be_null (df : DataFrame) (column : String) :
    Except PyError Expectation :=
  match df.getCol column with
  | none => Except.error PyError.keyError
  | some l =>
      let nc := nullCount l
      Except.ok
        { expectation_type := "expect_column_values_to_not_be_null"
          column := column
          success := nc = 0
          element_count := df.nRows
          unexpected_count := nc }

/-- `GreatExpectationsValidator._expect_column_values_to_be_between`. -/
def _expect_column_values_to_be_between (df : DataFrame) (column : String)
    (min_value max_value : ℚ) : Except PyError Expectation :=
  match df.getCol column with
  | none => Except.error PyError.keyError
  | some l =>
      let oor := outOfRangeCount min_value max_value l
      Except.ok
        { expectation_type := "expect_column_values_to_be_between"
          column := column
          success := oor = 0
          element_count := df.nRows
          unexpected_count := oor }

/-- `GreatExpectationsValidator._expect_column_values_to_be_unique`. -/
def _expect_column_values_to_be_unique (df : DataFrame) (column : String) :
    Except PyError Expectation :=
  match df.getCol column with
  | none => Except.error PyError.keyError
  | some l =>
      let d := dupCount l
      Except.ok
        { expectation_type := "expect_column_values_to_be_unique"
          column := column
          success := d = 0
          element_count := df.nRows
          unexpected_count := d }

/-- The Expectation Suite Report (statistics flattened). -/
structure SuiteReport where
  success : Bool
  evaluated_expectations : Nat
  successful_expectations : Nat
  unsuccessful_expectations : Nat
  success_percent : ℚ
  results : List Expectation
  deriving DecidableEq, Repr

/-- `GreatExpectationsValidator.create_expectation_suite`: five fixed
expectations, merged into one report. -/
def create_expectation_suite (df : DataFrame) : Except PyError SuiteReport := do
  let e1 ← _expect_column_values_to_not_be_null df "product_id"
  let e2 ← _expect_column_values_to_not_be_null df "quantity"
  let e3 ← _expect_column_values_to_be_between df "quantity" 0 1000000
  let e4 ← _expect_column_values_to_be_between df "unit_price" 0 100000
  let e5 ← _expect_column_values_to_be_unique df "batch_number"
  let expectations := [e1, e2, e3, e4, e5]
  let success_count := (expectations.filter (fun e => e.success)).length
  Except.ok
    { success := expectations.all (fun e => e.success)
      evaluated_expectations := expectations.length
      successful_expectations := success_count
      unsuccessful_expectations := expectations.length - success_count
      success_percent := ((success_count : ℚ) / (expectations.length : ℚ)) * 100
      results := expectations }

/-- Line 64 of `dags/data_quality_dag.py`: the combined gating decision. -/
def combinedStatus (basic : Summary) (ge : SuiteReport) : String :=
  if basic.status = "PASS" ∧ ge.success then "PASS" else "FAIL"

/-- The combined report assembled by `run_quality_checks_task`. -/
structure QualityResults where
  basic_checks : Summary
  great_expectations : SuiteReport
  overall_status : String
  deriving DecidableEq, Repr

/-- `run_quality_checks_task` of `dags/data_quality_dag.py`: runs both
validators on the same dataframe, combines the reports, and raises
`ValueError("Data quality below threshold")` when the combined status is
FAIL. -/
def run_quality_checks_task (df : DataFrame) : Except PyError QualityResults := do
  let basic ← validate_all initState df
  let ge ← create_expectation_suite df
  let results : QualityResults :=
    { basic_checks := basic
      great_expectations := ge
      overall_status := combinedStatus basic ge }
  if results.overall_status = "FAIL" then Except.error PyError.valueError
  else Except.ok results

/-- `p` holds of column `name` whenever that column is present. -/
def colOk (df : DataFrame) (name : String) (p : List Cell → Bool) : Bool :=
  match df.getCol name with
  | none => true
  | some l => p l

/-- `p` holds of columns `a` and `b` whenever both are present. -/
def pairOk (df : DataFrame) (a b : String)
    (p : List Cell → List Cell → Bool) : Bool :=
  match df.getCol a, df.getCol b with
  | some l1, some l2 => p l1 l2
  | _, _ => true

/-- The date-ordering part of the good-dataset hypothesis: when both date
columns are present, both parse and every expiry is strictly after its
manufacture date. -/
def goodDates (df : DataFrame) : Bool :=
  pairOk df "expiry_date" "manufacture_date" (fun ld lm =>
    match ld.mapM parseDate, lm.mapM parseDate with
    | some pe, some pm => expiryLeManufactureCount pe pm == 0
    | _, _ => false)

/-- The hypothesis of the spec's "all-good dataset" property: wherever the
battery's columns are present, they contain no nulls in critical columns,
no duplicate keys, no negative numerics, values inside the plausibility
bounds, standard warehouse values, and valid, correctly ordered dates. -/
def goodData (df : DataFrame) : Bool :=
  colOk df "product_id" (fun l => nullCount l == 0) &&
  colOk df "product_name" (fun l => nullCount l == 0) &&
  colOk df "quantity" (fun l => nullCount l == 0) &&
  colOk df "batch_number" (fun l => nullCount l == 0) &&
  colOk df "batch_number" (fun l => dupCount l == 0) &&
  pairOk df "product_id" "batch_number" (fun l1 l2 => dupCount (l1.zip l2) == 0) &&
  colOk df "quantity" (fun l => negCount l == 0) &&
  colOk df "unit_price" (fun l => negCount l == 0) &&
  colOk df "expiry_date" (fun l => (l.mapM parseDate).isSome) &&
  goodDates df &&
  colOk df "warehouse_location" (fun l => nonStdWarehouseCount l == 0) &&
  colOk df "quantity" (fun l => suspiciousCount 1000000 l == 0) &&
  colOk df "unit_price" (fun l => suspiciousCount 100000 l == 0)

/-- Unwrap an `Except`, with a default for the error case (used only to
name concrete computed reports in the examples below). -/
def exOk {e a : Type} (d : a) : Except e a → a
  | Except.ok v => v
  | Except.error _ => d

/-- Placeholder summary for `exOk`. -/
def defaultSummary : Summary :=
  ⟨0, 0, 0, 0, "", []⟩

/-- Placeholder suite report for `exOk`. -/
def defaultSuite : SuiteReport :=
  ⟨false, 0, 0, 0, 0, []⟩

/-- A fully clean two-row dataset: every battery column present and good. -/
def goodDf : DataFrame :=
  ⟨[("product_id", [Cell.num 1, Cell.num 2]),
    ("product_name", [Cell.str "Aspirin", Cell.str "Ibuprofen"]),
    ("quantity", [Cell.num 10, Cell.num 20]),
    ("batch_number", [Cell.str "B1", Cell.str "B2"]),
    ("unit_price", [Cell.num 5, Cell.num 6]),
    ("expiry_date", [Cell.date 300, Cell.date 400]),
    ("manufacture_date", [Cell.date 100, Cell.date 200]),
    ("warehouse_location", [Cell.str "Warehouse A", Cell.str "Warehouse B"])]⟩

/-- The summary `validate_all` computes on `goodDf`. -/
def goodSummary : Summary :=
  exOk defaultSummary (validate_all initState goodDf)

/-- The report `create_expectation_suite` computes on `goodDf`. -/
def goodSuite : SuiteReport :=
  exOk defaultSuite (create_expectation_suite goodDf)

/-- A dataset whose `expiry_date` column holds an unparseable string while
a `manufacture_date` column is also present. -/
def c1df : DataFrame :=
  ⟨[("quantity", [Cell.num 5]),
    ("expiry_date", [Cell.str "not-a-date"]),
    ("manufacture_date", [Cell.date 20240101])]⟩

/-- A dataset whose `unit_price` column contains a zero. -/
def c8df : DataFrame :=
  ⟨[("unit_price", [Cell.num 0, Cell.num 5])]⟩

/-- A dataset with no columns at all. -/
def emptyDf : DataFrame :=
  ⟨[]⟩

/-- A heterogeneous-schema dataset: `unit_price`, `expiry_date`,
`warehouse_location` and `batch_number` present; `product_id`,
`product_name`, `quantity` and `manufacture_date` absent. -/
def c3df : DataFrame :=
  ⟨[("unit_price", [Cell.num 3]),
    ("expiry_date", [Cell.date 10]),
    ("warehouse_location", [Cell.str "Warehouse A"]),
    ("batch_number", [Cell.str "B1"])]⟩

/-- A checker state with stale counters and results from an earlier run. -/
def dirtyState : CheckerState :=
  ⟨5, 7, [CheckResult.mk Status.FAIL "stale result"]⟩

/-- Number of counted checks in a state. -/
def totalOf (st : CheckerState) : Nat :=
  st.checks_passed + st.checks_failed

theorem log_check_total (st : CheckerState) (s : Status) (m : String) :
    totalOf (_log_check st s m) = totalOf st + 1 := by
  cases s <;> simp [_log_check, totalOf] <;> omega

theorem log_check_passed (st : CheckerState) (s : Status) (m : String) :
    (_log_check st s m).checks_passed =
      st.checks_passed + (if s = Status.FAIL then 0 else 1) := by
  cases s <;> simp [_log_check]

theorem log_check_failed (st : CheckerState) (s : Status) (m : String) :
    (_log_check st s m).checks_failed =
      st.checks_failed + (if s = Status.FAIL then 1 else 0) := by
  cases s <;> simp [_log_check]

theorem log_check_results (st : CheckerState) (s : Status) (m : String) :
    (_log_check st s m).results = st.results ++ [CheckResult.mk s m] := by
  cases s <;> simp [_log_check]

theorem completenessStep_total (df : DataFrame) (st : CheckerState) (c : String) :
    totalOf (completenessStep df st c) ≤ totalOf st + 1 := by
  unfold completenessStep
  split
  · exact Nat.le_succ _
  · dsimp only
    split <;> simp [log_check_total]

theorem batchUniqueRule_total (df : DataFrame) (st : CheckerState) :
    totalOf (batchUniqueRule df st) ≤ totalOf st + 1 := by
  unfold batchUniqueRule
  split
  · exact Nat.le_succ _
  · dsimp only
    split <;> simp [log_check_total]

theorem productBatchUniqueRule_total (df : DataFrame) (st : CheckerState) :
    totalOf (productBatchUniqueRule df st) ≤ totalOf st + 1 := by
  unfold productBatchUniqueRule
  split
  · dsimp only
    split <;> simp [log_check_total]
  · exact Nat.le_succ _

theorem quantityNonNegRule_total (df : DataFrame) (st : CheckerState) :
    totalOf (quantityNonNegRule df st) ≤ totalOf st + 1 := by
  unfold quantityNonNegRule
  split
  · exact Nat.le_succ _
  · dsimp only
    split <;> simp [log_check_total]

theorem priceNonNegRule_total (df : DataFrame) (st : CheckerState) :
    totalOf (priceNonNegRule df st) ≤ totalOf st + 1 := by
  unfold priceNonNegRule
  split
  · exact Nat.le_succ _
  · dsimp only
    split <;> simp [log_check_total]

theorem expiryParseRule_total (df : DataFrame) (st : CheckerState) :
    totalOf (expiryParseRule df st) ≤ totalOf st + 1 := by
  unfold expiryParseRule
  split
  · exact Nat.le_succ _
  · split <;> simp [log_check_total]

theorem warehouseRule_total (df : DataFrame) (st : CheckerState) :
    totalOf (warehouseRule df st) ≤ totalOf st + 1 := by
  unfold warehouseRule
  split
  · exact Nat.le_succ _
  · dsimp only
    split <;> simp [log_check_total]

theorem quantityRangeRule_total (df : DataFrame) (st : CheckerState) :
    totalOf (quantityRangeRule df st) ≤ totalOf st + 1 := by
  unfold quantityRangeRule
  split
  · exact Nat.le_succ _
  · dsimp only
    split <;> simp [log_check_total]

theorem priceRangeRule_total (df : DataFrame) (st : CheckerState) :
    totalOf (priceRangeRule df st) ≤ totalOf st + 1 := by
  unfold priceRangeRule
  split
  · exact Nat.le_succ _
  · dsimp only
    split <;> simp [log_check_total]

theorem expiryOrderRule_total (df : DataFrame) (st st' : CheckerState)
    (h : expiryOrderRule df st = Except.ok st') :
    totalOf st' ≤ totalOf st + 1 := by
  unfold expiryOrderRule at h
  split at h
  · split at h
    · dsimp only at h
      split at h <;> cases h <;> simp [log_check_total]
    · cases h
  · cases h
    exact Nat.le_succ _

theorem foldl_completeness_total (df : DataFrame) :
    ∀ (cs : List String) (st : CheckerState),
      totalOf (cs.foldl (completenessStep df) st) ≤ totalOf st + cs.length := by
  intro cs
  induction cs with
  | nil => intro st; simp
  | cons c cs ih =>
      intro st
      have h1 := ih (completenessStep df st c)
      have h2 := completenessStep_total df st c
      simp only [List.foldl_cons, List.length_cons]
      omega

theorem completeness_total (st : CheckerState) (df : DataFrame) :
    totalOf (_check_completeness st df) ≤ totalOf st + 4 := by
  have := foldl_completeness_total df critical_columns st
  simpa [_check_completeness, critical_columns] using this

theorem uniqueness_total (st : CheckerState) (df : DataFrame) :
    totalOf (_check_uniqueness st df) ≤ totalOf st + 2 := by
  unfold _check_uniqueness
  have h1 := batchUniqueRule_total df st
  have h2 := productBatchUniqueRule_total df (batchUniqueRule df st)
  omega

theorem validity_total (st : CheckerState) (df : DataFrame) :
    totalOf (_check_validity st df) ≤ totalOf st + 3 := by
  unfold _check_validity
  have h1 := quantityNonNegRule_total df st
  have h2 := priceNonNegRule_total df (quantityNonNegRule df st)
  have h3 := expiryParseRule_total df (priceNonNegRule df (quantityNonNegRule df st))
  omega

theorem accuracy_total (st : CheckerState) (df : DataFrame) :
    totalOf (_check_accuracy st df) ≤ totalOf st + 2 := by
  unfold _check_accuracy
  have h1 := quantityRangeRule_total df st
  have h2 := priceRangeRule_total df (quantityRangeRule df st)
  omega

theorem consistency_total (st st' : CheckerState) (df : DataFrame)
    (h : _check_consistency st df = Except.ok st') :
    totalOf st' ≤ totalOf st + 2 := by
  unfold _check_consistency at h
  split at h
  · cases h
  · rename_i st1 heq
    cases h
    have h1 := expiryOrderRule_total df st st1 heq
    have h2 := warehouseRule_total df st1
    omega

theorem runBattery_ok_total (df : DataFrame) (st : CheckerState)
    (h : runBattery df = Except.ok st) : 1 ≤ totalOf st → totalOf st ≤ 13 := by
  intro _
  unfold runBattery at h
  dsimp only at h
  split at h
  · cases h
  · rename_i st4 heq
    cases h
    have h0 : totalOf initState = 0 := rfl
    have h1 := completeness_total initState df
    have h2 := uniqueness_total (_check_completeness initState df) df
    have h3 := validity_total (_check_uniqueness (_check_completeness initState df) df) df
    have h4 := consistency_total
      (_check_validity (_check_uniqueness (_check_completeness initState df) df) df) st4 df heq
    have h5 := accuracy_total st4 df
    omega

theorem completenessStep_skip (df : DataFrame) (st : CheckerState) (c : String)
    (h : df.getCol c = none) : completenessStep df st c = st := by
  simp [completenessStep, h]

theorem batchUniqueRule_skip (df : DataFrame) (st : CheckerState)
    (h : df.getCol "batch_number" = none) : batchUniqueRule df st = st := by
  simp [batchUniqueRule, h]

theorem productBatchUniqueRule_skip (df : DataFrame) (st : CheckerState)
    (h : df.getCol "product_id" = none ∨ df.getCol "batch_number" = none) :
    productBatchUniqueRule df st = st := by
  rcases hp : df.getCol "product_id" with _ | l1 <;>
    rcases hb : df.getCol "batch_number" with _ | l2 <;>
    simp [productBatchUniqueRule, hp, hb] <;>
    simp [hp, hb] at h

theorem quantityNonNegRule_skip (df : DataFrame) (st : CheckerState)
    (h : df.getCol "quantity" = none) : quantityNonNegRule df st = st := by
  simp [quantityNonNegRule, h]

theorem priceNonNegRule_skip (df : DataFrame) (st : CheckerState)
    (h : df.getCol "unit_price" = none) : priceNonNegRule df st = st := by
  simp [priceNonNegRule, h]

theorem expiryParseRule_skip (df : DataFrame) (st : CheckerState)
    (h : df.getCol "expiry_date" = none) : expiryParseRule df st = st := by
  simp [expiryParseRule, h]

theorem expiryOrderRule_skip (df : DataFrame) (st : CheckerState)
    (h : df.getCol "expiry_date" = none ∨ df.getCol "manufacture_date" = none) :
    expiryOrderRule df st = Except.ok st := by
  rcases he : df.getCol "expiry_date" with _ | ld <;>
    rcases hm : df.getCol "manufacture_date" with _ | lm <;>
    simp [expiryOrderRule, he, hm] <;>
    simp [he, hm] at h

theorem warehouseRule_skip (df : DataFrame) (st : CheckerState)
    (h : df.getCol "warehouse_location" = none) : warehouseRule df st = st := by
  simp [warehouseRule, h]

theorem quantityRangeRule_skip (df : DataFrame) (st : CheckerState)
    (h : df.getCol "quantity" = none) : quantityRangeRule df st = st := by
  simp [quantityRangeRule, h]

theorem priceRangeRule_skip (df : DataFrame) (st : CheckerState)
    (h : df.getCol "unit_price" = none) : priceRangeRule df st = st := by
  simp [priceRangeRule, h]

theorem completeness_skip (st : CheckerState) (df : DataFrame)
    (h1 : df.getCol "product_id" = none) (h2 : df.getCol "product_name" = none)
    (h3 : df.getCol "quantity" = none) (h4 : df.getCol "batch_number" = none) :
    _check_completeness st df = st := by
  unfold _check_completeness critical_columns
  simp only [List.foldl_cons, List.foldl_nil]
  rw [completenessStep_skip df st _ h1, completenessStep_skip df st _ h2,
      completenessStep_skip df st _ h3, completenessStep_skip df st _ h4]

theorem uniqueness_skip (st : CheckerState) (df : DataFrame)
    (h : df.getCol "batch_number" = none) : _check_uniqueness st df = st := by
  unfold _check_uniqueness
  rw [batchUniqueRule_skip df st h, productBatchUniqueRule_skip df st (Or.inr h)]

theorem validity_skip (st : CheckerState) (df : DataFrame)
    (h1 : df.getCol "quantity" = none) (h2 : df.getCol "unit_price" = none)
    (h3 : df.getCol "expiry_date" = none) : _check_validity st df = st := by
  unfold _check_validity
  rw [quantityNonNegRule_skip df st h1, priceNonNegRule_skip df st h2,
      expiryParseRule_skip df st h3]

theorem consistency_skip (st : CheckerState) (df : DataFrame)
    (h1 : df.getCol "expiry_date" = none)
    (h2 : df.getCol "warehouse_location" = none) :
    _check_consistency st df = Except.ok st := by
  unfold _check_consistency
  rw [expiryOrderRule_skip df st (Or.inl h1)]
  simp [warehouseRule_skip df st h2]

theorem accuracy_skip (st : CheckerState) (df : DataFrame)
    (h1 : df.getCol "quantity" = none) (h2 : df.getCol "unit_price" = none) :
    _check_accuracy st df = st := by
  unfold _check_accuracy
  rw [quantityRangeRule_skip df st h1, priceRangeRule_skip df st h2]

theorem completenessStep_failed (df : DataFrame) (st : CheckerState) (c : String)
    (h : ∀ l, df.getCol c = some l → nullCount l = 0) :
    (completenessStep df st c).checks_failed = st.checks_failed := by
  unfold completenessStep
  split
  · rfl
  · rename_i x l heq
    dsimp only
    rw [if_pos (h l heq)]
    simp [log_check_failed]

theorem batchUniqueRule_failed (df : DataFrame) (st : CheckerState)
    (h : ∀ l, df.getCol "batch_number" = some l → dupCount l = 0) :
    (batchUniqueRule df st).checks_failed = st.checks_failed := by
  unfold batchUniqueRule
  split
  · rfl
  · rename_i x l heq
    dsimp only
    rw [if_pos (h l heq)]
    simp [log_check_failed]

theorem productBatchUniqueRule_failed (df : DataFrame) (st : CheckerState)
    (h : ∀ l1 l2, df.getCol "product_id" = some l1 →
      df.getCol "batch_number" = some l2 → dupCount (l1.zip l2) = 0) :
    (productBatchUniqueRule df st).checks_failed = st.checks_failed := by
  unfold productBatchUniqueRule
  split
  · rename_i x1 x2 l1 l2 h1 h2
    dsimp only
    rw [if_pos (h l1 l2 h1 h2)]
    simp [log_check_failed]
  · rfl

theorem quantityNonNegRule_failed (df : DataFrame) (st : CheckerState)
    (h : ∀ l, df.getCol "quantity" = some l → negCount l = 0) :
    (quantityNonNegRule df st).checks_failed = st.checks_failed := by
  unfold quantityNonNegRule
  split
  · rfl
  · rename_i x l heq
    dsimp only
    rw [if_pos (h l heq)]
    simp [log_check_failed]

theorem priceNonNegRule_failed (df : DataFrame) (st : CheckerState)
    (h : ∀ l, df.getCol "unit_price" = some l → negCount l = 0) :
    (priceNonNegRule df st).checks_failed = st.checks_failed := by
  unfold priceNonNegRule
  split
  · rfl
  · rename_i x l heq
    dsimp only
    rw [if_pos (h l heq)]
    simp [log_check_failed]

theorem expiryParseRule_failed (df : DataFrame) (st : CheckerState)
    (h : ∀ l, df.getCol "expiry_date" = some l → (l.mapM parseDate).isSome = true) :
    (expiryParseRule df st).checks_failed = st.checks_failed := by
  unfold expiryParseRule
  split
  · rfl
  · rename_i x l heq
    split
    · simp [log_check_failed]
    · rename_i hp
      have := h l heq
      rw [hp] at this
      simp at this

theorem warehouseRule_failed (df : DataFrame) (st : CheckerState) :
    (warehouseRule df st).checks_failed = st.checks_failed := by
  unfold warehouseRule
  split
  · rfl
  · dsimp only
    split <;> simp [log_check_failed]

theorem quantityRangeRule_failed (df : DataFrame) (st : CheckerState) :
    (quantityRangeRule df st).checks_failed = st.checks_failed := by
  unfold quantityRangeRule
  split
  · rfl
  · dsimp only
    split <;> simp [log_check_failed]

theorem priceRangeRule_failed (df : DataFrame) (st : CheckerState) :
    (priceRangeRule df st).checks_failed = st.checks_failed := by
  unfold priceRangeRule
  split
  · rfl
  · dsimp only
    split <;> simp [log_check_failed]

theorem expiryOrderRule_good (df : DataFrame) (st : CheckerState)
    (h : ∀ ld lm, df.getCol "expiry_date" = some ld →
      df.getCol "manufacture_date" = some lm →
      ∃ pe pm, ld.mapM parseDate = some pe ∧ lm.mapM parseDate = some pm ∧
        expiryLeManufactureCount pe pm = 0) :
    ∃ st', expiryOrderRule df st = Except.ok st' ∧
      st'.checks_failed = st.checks_failed := by
  rcases he : df.getCol "expiry_date" with _ | ld <;>
    rcases hm : df.getCol "manufacture_date" with _ | lm
  · exact ⟨st, by simp [expiryOrderRule, he, hm], rfl⟩
  · exact ⟨st, by simp [expiryOrderRule, he, hm], rfl⟩
  · exact ⟨st, by simp [expiryOrderRule, he, hm], rfl⟩
  · obtain ⟨pe, pm, hpe, hpm, hcnt⟩ := h ld lm he hm
    refine ⟨_log_check st Status.PASS
      "Consistency: All expiry dates > manufacture dates", ?_, ?_⟩
    · simp only [expiryOrderRule, he, hm, hpe, hpm]
      rw [if_pos hcnt]
    · simp [log_check_failed]

theorem completeness_failed (st : CheckerState) (df : DataFrame)
    (h1 : ∀ l, df.getCol "product_id" = some l → nullCount l = 0)
    (h2 : ∀ l, df.getCol "product_name" = some l → nullCount l = 0)
    (h3 : ∀ l, df.getCol "quantity" = some l → nullCount l = 0)
    (h4 : ∀ l, df.getCol "batch_number" = some l → nullCount l = 0) :
    (_check_completeness st df).checks_failed = st.checks_failed := by
  unfold _check_completeness critical_columns
  simp only [List.foldl_cons, List.foldl_nil]
  rw [completenessStep_failed df _ _ h4, completenessStep_failed df _ _ h3,
      completenessStep_failed df _ _ h2, completenessStep_failed df _ _ h1]

theorem uniqueness_failed (st : CheckerState) (df : DataFrame)
    (h1 : ∀ l, df.getCol "batch_number" = some l → dupCount l = 0)
    (h2 : ∀ l1 l2, df.getCol "product_id" = some l1 →
      df.getCol "batch_number" = some l2 → dupCount (l1.zip l2) = 0) :
    (_check_uniqueness st df).checks_failed = st.checks_failed := by
  unfold _check_uniqueness
  rw [productBatchUniqueRule_failed df _ h2, batchUniqueRule_failed df _ h1]

theorem validity_failed (st : CheckerState) (df : DataFrame)
    (h1 : ∀ l, df.getCol "quantity" = some l → negCount l = 0)
    (h2 : ∀ l, df.getCol "unit_price" = some l → negCount l = 0)
    (h3 : ∀ l, df.getCol "expiry_date" = some l → (l.mapM parseDate).isSome = true) :
    (_check_validity st df).checks_failed = st.checks_failed := by
  unfold _check_validity
  rw [expiryParseRule_failed df _ h3, priceNonNegRule_failed df _ h2,
      quantityNonNegRule_failed df _ h1]

theorem accuracy_failed (st : CheckerState) (df : DataFrame) :
    (_check_accuracy st df).checks_failed = st.checks_failed := by
  unfold _check_accuracy
  rw [priceRangeRule_failed df _, quantityRangeRule_failed df _]

theorem consistency_good (st : CheckerState) (df : DataFrame)
    (h : ∀ ld lm, df.getCol "expiry_date" = some ld →
      df.getCol "manufacture_date" = some lm →
      ∃ pe pm, ld.mapM parseDate = some pe ∧ lm.mapM parseDate = some pm ∧
        expiryLeManufactureCount pe pm = 0) :
    ∃ st', _check_consistency st df = Except.ok st' ∧
      st'.checks_failed = st.checks_failed := by
  obtain ⟨st1, hok, hf⟩ := expiryOrderRule_good df st h
  refine ⟨warehouseRule df st1, ?_, ?_⟩
  · unfold _check_consistency
    rw [hok]
  · rw [warehouseRule_failed df st1, hf]





theorem colOk_elim {df : DataFrame} {name : String} {p : List Cell → Bool}
    (h : colOk df name p = true) :
    ∀ l, df.getCol name = some l → p l = true := by
  intro l hl
  unfold colOk at h
  rw [hl] at h
  exact h

theorem pairOk_elim {df : DataFrame} {a b : String}
    {p : List Cell → List Cell → Bool} (h : pairOk df a b p = true) :
    ∀ l1 l2, df.getCol a = some l1 → df.getCol b = some l2 → p l1 l2 = true := by
  intro l1 l2 h1 h2
  unfold pairOk at h
  rw [h1, h2] at h
  exact h





theorem runBattery_good (df : DataFrame) (st : CheckerState)
    (hg : goodData df = true) (h : runBattery df = Except.ok st) :
    st.checks_failed = 0 := by
  simp only [goodData, Bool.and_eq_true] at hg
  obtain ⟨⟨⟨⟨⟨⟨⟨⟨⟨⟨⟨⟨g1, g2⟩, g3⟩, g4⟩, g5⟩, g6⟩, g7⟩, g8⟩, g9⟩, g10⟩,
    g11⟩, g12⟩, g13⟩ := hg
  have c1 : ∀ l, df.getCol "product_id" = some l → nullCount l = 0 := by
    intro l hl; simpa using colOk_elim g1 l hl
  have c2 : ∀ l, df.getCol "product_name" = some l → nullCount l = 0 := by
    intro l hl; simpa using colOk_elim g2 l hl
  have c3 : ∀ l, df.getCol "quantity" = some l → nullCount l = 0 := by
    intro l hl; simpa using colOk_elim g3 l hl
  have c4 : ∀ l, df.getCol "batch_number" = some l → nullCount l = 0 := by
    intro l hl; simpa using colOk_elim g4 l hl
  have c5 : ∀ l, df.getCol "batch_number" = some l → dupCount l = 0 := by
    intro l hl; simpa using colOk_elim g5 l hl
  have c6 : ∀ l1 l2, df.getCol "product_id" = some l1 →
      df.getCol "batch_number" = some l2 → dupCount (l1.zip l2) = 0 := by
    intro l1 l2 h1 h2; simpa using pairOk_elim g6 l1 l2 h1 h2
  have c7 : ∀ l, df.getCol "quantity" = some l → negCount l = 0 := by
    intro l hl; simpa using colOk_elim g7 l hl
  have c8 : ∀ l, df.getCol "unit_price" = some l → negCount l = 0 := by
    intro l hl; simpa using colOk_elim g8 l hl
  have c9 : ∀ l, df.getCol "expiry_date" = some l →
      (l.mapM parseDate).isSome = true := by
    intro l hl; simpa using colOk_elim g9 l hl
  have cg : ∀ ld lm, df.getCol "expiry_date" = some ld →
      df.getCol "manufacture_date" = some lm →
      ∃ pe pm, ld.mapM parseDate = some pe ∧ lm.mapM parseDate = some pm ∧
        expiryLeManufactureCount pe pm = 0 := by
    intro ld lm he hm
    have hd := pairOk_elim g10 ld lm he hm
    rcases hpe : ld.mapM parseDate with _ | pe <;>
      rcases hpm : lm.mapM parseDate with _ | pm <;>
      rw [hpe, hpm] at hd <;> simp at hd
    exact ⟨pe, pm, rfl, rfl, hd⟩
  obtain ⟨st4, hok, hf⟩ := consistency_good
    (_check_validity (_check_uniqueness (_check_completeness initState df) df) df) df cg
  unfold runBattery at h
  dsimp only at h
  rw [hok] at h
  simp only [Except.ok.injEq] at h
  subst h
  rw [accuracy_failed, hf, validity_failed _ _ c7 c8 c9,
      uniqueness_failed _ _ c5 c6, completeness_failed _ _ c1 c2 c3 c4]
  rfl

theorem validate_all_ok_inv (st₀ : CheckerState) (df : DataFrame) (s : Summary)
    (h : validate_all st₀ df = Except.ok s) :
    ∃ st, runBattery df = Except.ok st ∧
      st.checks_passed + st.checks_failed ≠ 0 ∧
      s.total_checks = st.checks_passed + st.checks_failed ∧
      s.passed = st.checks_passed ∧
      s.failed = st.checks_failed ∧
      s.success_rate = round2 (((st.checks_passed : ℚ) /
        ((st.checks_passed + st.checks_failed : Nat) : ℚ)) * 100) ∧
      s.status = (if (95 : ℚ) ≤ ((st.checks_passed : ℚ) /
          ((st.checks_passed + st.checks_failed : Nat) : ℚ)) * 100
        then "PASS" else "FAIL") ∧
      s.details = st.results := by
  unfold validate_all at h
  split at h
  · cases h
  · rename_i st heq
    dsimp only at h
    split at h
    · cases h
    · rename_i hne
      cases h
      exact ⟨st, heq, hne, rfl, rfl, rfl, rfl, rfl, rfl⟩

theorem round2_nonneg {q : ℚ} (h : 0 ≤ q) : 0 ≤ round2 q := by
  unfold round2
  have h1 : (0 : ℚ) ≤ q * 100 + 1 / 2 := by linarith
  have h2 : (0 : ℤ) ≤ ⌊q * 100 + 1 / 2⌋ := Int.le_floor.mpr (by exact_mod_cast h1)
  have h3 : (0 : ℚ) ≤ (⌊q * 100 + 1 / 2⌋ : ℚ) := by exact_mod_cast h2
  linarith

theorem round2_le_100 {q : ℚ} (h : q ≤ 100) : round2 q ≤ 100 := by
  unfold round2
  have h1 : (⌊q * 100 + 1 / 2⌋ : ℚ) ≤ q * 100 + 1 / 2 := Int.floor_le _
  have h2 : (⌊q * 100 + 1 / 2⌋ : ℚ) < 10001 := by linarith
  have h3 : ⌊q * 100 + 1 / 2⌋ < 10001 := by exact_mod_cast h2
  have h4 : ⌊q * 100 + 1 / 2⌋ ≤ 10000 := by omega
  have h5 : (⌊q * 100 + 1 / 2⌋ : ℚ) ≤ 10000 := by exact_mod_cast h4
  linarith

theorem round2_ge_95 {q : ℚ} (h : 95 ≤ q) : 95 ≤ round2 q := by
  unfold round2
  have h1 : (9500 : ℚ) ≤ q * 100 + 1 / 2 := by linarith
  have h2 : (9500 : ℤ) ≤ ⌊q * 100 + 1 / 2⌋ := Int.le_floor.mpr (by exact_mod_cast h1)
  have h3 : (9500 : ℚ) ≤ (⌊q * 100 + 1 / 2⌋ : ℚ) := by exact_mod_cast h2
  linarith

theorem rate95_iff (p t : Nat) (ht : t ≠ 0) :
    ((95 : ℚ) ≤ (p : ℚ) / (t : ℚ) * 100) ↔ 95 * t ≤ 100 * p := by
  have htq : (0 : ℚ) < (t : ℚ) := by exact_mod_cast Nat.pos_of_ne_zero ht
  rw [div_mul_eq_mul_div, le_div_iff htq]
  constructor
  · intro h
    have h2 : ((95 * t : Nat) : ℚ) ≤ ((100 * p : Nat) : ℚ) := by push_cast; linarith
    exact_mod_cast h2
  · intro h
    have h2 : ((95 * t : Nat) : ℚ) ≤ ((100 * p : Nat) : ℚ) := by exact_mod_cast h
    push_cast at h2
    linarith

theorem rate_nonneg (p t : Nat) : (0 : ℚ) ≤ (p : ℚ) / (t : ℚ) * 100 := by
  positivity

theorem rate_le_100 (p t : Nat) (hpt : p ≤ t) :
    (p : ℚ) / (t : ℚ) * 100 ≤ 100 := by
  rcases Nat.eq_zero_or_pos t with h | h
  · subst h; simp
  · have htq : (0 : ℚ) < (t : ℚ) := by exact_mod_cast h
    rw [div_mul_eq_mul_div, div_le_iff htq]
    have : ((p : Nat) : ℚ) ≤ ((t : Nat) : ℚ) := by exact_mod_cast hpt
    nlinarith

/-- With at most 13 counted checks, the success rate is ≥ 95 exactly when
its rounded form is: no reachable rate falls in the half-open rounding
window [94.995, 95). -/
theorem round2_rate95_iff (p t : Nat) (ht : t ≠ 0) (h13 : t ≤ 13) (hpt : p ≤ t) :
    ((95 : ℚ) ≤ round2 ((p : ℚ) / (t : ℚ) * 100)) ↔
      ((95 : ℚ) ≤ (p : ℚ) / (t : ℚ) * 100) := by
  constructor
  · intro h
    have htq : (0 : ℚ) < (t : ℚ) := by exact_mod_cast Nat.pos_of_ne_zero ht
    unfold round2 at h
    have h1 : (9500 : ℚ) ≤ ((⌊(p : ℚ) / (t : ℚ) * 100 * 100 + 1 / 2⌋ : ℤ) : ℚ) := by
      have := (le_div_iff (by norm_num : (0 : ℚ) < 100)).mp h
      linarith
    have h2 : (9500 : ℚ) ≤ (p : ℚ) / (t : ℚ) * 100 * 100 + 1 / 2 :=
      le_trans h1 (Int.floor_le _)
    have h3 : (18999 : ℚ) / 2 * (t : ℚ) ≤ (p : ℚ) * 10000 := by
      have h4 : (18999 : ℚ) / 2 ≤ (p : ℚ) / (t : ℚ) * 10000 := by linarith
      have h5 := mul_le_mul_of_nonneg_right h4 (le_of_lt htq)
      calc (18999 : ℚ) / 2 * (t : ℚ) ≤ (p : ℚ) / (t : ℚ) * 10000 * (t : ℚ) := h5
        _ = (p : ℚ) * 10000 := by field_simp
    have h6 : ((18999 * t : Nat) : ℚ) ≤ ((20000 * p : Nat) : ℚ) := by push_cast; linarith
    have h7 : 18999 * t ≤ 20000 * p := by exact_mod_cast h6
    have hp : p = t := by omega
    subst hp
    have : ((p : ℚ) / (p : ℚ)) = 1 := div_self (ne_of_gt htq)
    rw [this]
    norm_num
  · exact round2_ge_95

/-- C1: the spec claims any would-throw condition degrades to a FAIL
verdict for that rule and the battery continues to a complete summary.
On `c1df` (garbage `expiry_date` plus a `manufacture_date` column) the
validity rule, whose parse sits in try/except, does degrade to FAIL; but
the consistency rule's unguarded `pd.to_datetime` raises, the exception
escapes `validate_all`, the accuracy rules never run and no summary is
returned — the claim fails on the code. -/
theorem c1_rule_isolation_violated :
    validate_all initState c1df = Except.error PyError.typeOrParseError ∧
    CheckResult.mk Status.FAIL "Validity: Invalid expiry date format found"
      ∈ (_check_validity initState c1df).results :=
  ⟨rfl, by decide⟩

/-- C3: every rule of the battery, when a column it requires is absent —
regardless of which sibling columns are present — emits no check result
and leaves the tallies untouched (the rule returns the state unchanged),
and this raises no error.  Stated per rule: each completeness step for
its own column; the batch-uniqueness rule without `batch_number`; the
composite rule when either `product_id` or `batch_number` is missing;
each validity rule for its own column; the date-ordering rule when
either `expiry_date` or `manufacture_date` is missing (returning `ok`);
the warehouse rule; and both accuracy rules.  The last four conjuncts
show a skipped rule inside its check method leaves the sibling rules of
that method still running: validity without `quantity`, consistency
without `manufacture_date` (the warehouse rule still runs), uniqueness
without `product_id` (the batch rule still runs), accuracy without
`unit_price`. -/
theorem c3_absent_column_rules_skipped (st : CheckerState) (df : DataFrame) :
    (∀ c, df.getCol c = none → completenessStep df st c = st) ∧
    (df.getCol "batch_number" = none → batchUniqueRule df st = st) ∧
    ((df.getCol "product_id" = none ∨ df.getCol "batch_number" = none) →
      productBatchUniqueRule df st = st) ∧
    (df.getCol "quantity" = none → quantityNonNegRule df st = st) ∧
    (df.getCol "unit_price" = none → priceNonNegRule df st = st) ∧
    (df.getCol "expiry_date" = none → expiryParseRule df st = st) ∧
    ((df.getCol "expiry_date" = none ∨ df.getCol "manufacture_date" = none) →
      expiryOrderRule df st = Except.ok st) ∧
    (df.getCol "warehouse_location" = none → warehouseRule df st = st) ∧
    (df.getCol "quantity" = none → quantityRangeRule df st = st) ∧
    (df.getCol "unit_price" = none → priceRangeRule df st = st) ∧
    (df.getCol "quantity" = none →
      _check_validity st df = expiryParseRule df (priceNonNegRule df st)) ∧
    (df.getCol "manufacture_date" = none →
      _check_consistency st df = Except.ok (warehouseRule df st)) ∧
    (df.getCol "product_id" = none →
      _check_uniqueness st df = batchUniqueRule df st) ∧
    (df.getCol "unit_price" = none →
      _check_accuracy st df = quantityRangeRule df st) := by
  refine ⟨?_, ?_, ?_, ?_, ?_, ?_, ?_, ?_, ?_, ?_, ?_, ?_, ?_, ?_⟩
  · intro c h
    exact completenessStep_skip df st c h
  · intro h
    exact batchUniqueRule_skip df st h
  · intro h
    exact productBatchUniqueRule_skip df st h
  · intro h
    exact quantityNonNegRule_skip df st h
  · intro h
    exact priceNonNegRule_skip df st h
  · intro h
    exact expiryParseRule_skip df st h
  · intro h
    exact expiryOrderRule_skip df st h
  · intro h
    exact warehouseRule_skip df st h
  · intro h
    exact quantityRangeRule_skip df st h
  · intro h
    exact priceRangeRule_skip df st h
  · intro h
    unfold _check_validity
    rw [quantityNonNegRule_skip df st h]
  · intro h
    unfold _check_consistency
    rw [expiryOrderRule_skip df st (Or.inr h)]
  · intro h
    unfold _check_uniqueness
    rw [productBatchUniqueRule_skip df (batchUniqueRule df st) (Or.inl h)]
  · intro h
    unfold _check_accuracy
    rw [priceRangeRule_skip df (quantityRangeRule df st) h]

theorem c3_absent_column_rules_skipped_witness :
    completenessStep c3df initState "quantity" = initState ∧
    batchUniqueRule emptyDf initState = initState ∧
    productBatchUniqueRule c3df initState = initState ∧
    quantityNonNegRule c3df initState = initState ∧
    priceNonNegRule emptyDf initState = initState ∧
    expiryParseRule emptyDf initState = initState ∧
    expiryOrderRule c3df initState = Except.ok initState ∧
    warehouseRule emptyDf initState = initState ∧
    quantityRangeRule c3df initState = initState ∧
    priceRangeRule emptyDf initState = initState ∧
    _check_validity initState c3df =
      expiryParseRule c3df (priceNonNegRule c3df initState) ∧
    _check_consistency initState c3df =
      Except.ok (warehouseRule c3df initState) ∧
    _check_uniqueness initState c3df = batchUniqueRule c3df initState ∧
    _check_accuracy initState emptyDf = quantityRangeRule emptyDf initState := by
  obtain ⟨a1, a2, a3, a4, a5, a6, a7, a8, a9, a10, a11, a12, a13, a14⟩ :=
    c3_absent_column_rules_skipped initState c3df
  obtain ⟨b1, b2, b3, b4, b5, b6, b7, b8, b9, b10, b11, b12, b13, b14⟩ :=
    c3_absent_column_rules_skipped initState emptyDf
  exact ⟨a1 "quantity" rfl, b2 rfl, a3 (Or.inl rfl), a4 rfl, b5 rfl, b6 rfl,
    a7 (Or.inr rfl), b8 rfl, a9 rfl, b10 rfl, a11 rfl, a12 rfl, a13 rfl,
    b14 rfl⟩

/-- C5: `validate_all` clears the instance counters and results at the
start of each invocation (lines 22–24), so its output is independent of
the checker state left by any earlier call: two calls on the same
unmodified dataset — in particular a second call on the same instance —
produce identical summaries, hence identical `passed`, `failed` and
`success_rate`. -/
theorem c5_no_state_leak (st₁ st₂ : CheckerState) (df : DataFrame) :
    validate_all st₁ df = validate_all st₂ df ∧
    (∀ s₁ s₂, validate_all st₁ df = Except.ok s₁ →
      validate_all st₂ df = Except.ok s₂ →
      s₁.passed = s₂.passed ∧ s₁.failed = s₂.failed ∧
      s₁.success_rate = s₂.success_rate) := by
  refine ⟨rfl, ?_⟩
  intro s₁ s₂ h₁ h₂
  have h₃ : validate_all st₁ df = Except.ok s₂ := h₂
  rw [h₁] at h₃
  cases h₃
  exact ⟨rfl, rfl, rfl⟩

theorem c5_no_state_leak_witness :
    validate_all initState goodDf = validate_all dirtyState goodDf ∧
    (goodSummary.passed = goodSummary.passed ∧
     goodSummary.failed = goodSummary.failed ∧
     goodSummary.success_rate = goodSummary.success_rate) :=
  ⟨(c5_no_state_leak initState dirtyState goodDf).1,
   (c5_no_state_leak initState dirtyState goodDf).2 goodSummary goodSummary rfl rfl⟩

/-- C10: `create_expectation_suite` subscripts `product_id`, `quantity`,
`unit_price` and `batch_number` unconditionally, so a frame missing any
of them makes the call raise `KeyError` instead of skipping the
expectation or returning a report — unlike the check evaluator's
silent-skip policy. -/
theorem c10_missing_column_raises (df : DataFrame)
    (h : df.getCol "product_id" = none ∨ df.getCol "quantity" = none ∨
      df.getCol "unit_price" = none ∨ df.getCol "batch_number" = none) :
    create_expectation_suite df = Except.error PyError.keyError := by
  unfold create_expectation_suite
  rcases hp : df.getCol "product_id" with _ | l1
  · simp only [_expect_column_values_to_not_be_null, hp]
    rfl
  rcases hq : df.getCol "quantity" with _ | l2
  · simp only [_expect_column_values_to_not_be_null, hp, hq]
    rfl
  rcases hu : df.getCol "unit_price" with _ | l3
  · simp only [_expect_column_values_to_not_be_null,
      _expect_column_values_to_be_between, hp, hq, hu]
    rfl
  rcases hb : df.getCol "batch_number" with _ | l4
  · simp only [_expect_column_values_to_not_be_null,
      _expect_column_values_to_be_between,
      _expect_column_values_to_be_unique, hp, hq, hu, hb]
    rfl
  · simp [hp, hq, hu, hb] at h

theorem c10_missing_column_raises_witness :
    create_expectation_suite emptyDf = Except.error PyError.keyError :=
  c10_missing_column_raises emptyDf (Or.inl rfl)

/-- C2: every summary `validate_all` returns satisfies
`passed + failed = total_checks`, `0 ≤ success_rate ≤ 100`, and
`status = "PASS"` iff `success_rate ≥ 95.0` (`status` is computed from
the un-rounded rate, but with at most 13 checks no reachable rate falls
inside the rounding window, so the equivalence also holds for the rounded
`success_rate` field); WARN results are counted toward `passed`. -/
theorem c2_summary_invariants (st₀ : CheckerState) (df : DataFrame) (s : Summary)
    (h : validate_all st₀ df = Except.ok s) :
    s.passed + s.failed = s.total_checks ∧
    (0 : ℚ) ≤ s.success_rate ∧ s.success_rate ≤ 100 ∧
    (s.status = "PASS" ↔ (95 : ℚ) ≤ s.success_rate) ∧
    (∀ st m, (_log_check st Status.WARN m).checks_passed = st.checks_passed + 1 ∧
      (_log_check st Status.WARN m).checks_failed = st.checks_failed) := by
  obtain ⟨st, hrb, hne, ht, hp, hf, hr, hst, -⟩ := validate_all_ok_inv st₀ df s h
  have h13 : totalOf st ≤ 13 :=
    runBattery_ok_total df st hrb (by unfold totalOf; omega)
  unfold totalOf at h13
  have hple : st.checks_passed ≤ st.checks_passed + st.checks_failed :=
    Nat.le_add_right _ _
  have hbounds : (0 : ℚ) ≤ s.success_rate ∧ s.success_rate ≤ 100 := by
    rw [hr]
    exact ⟨round2_nonneg (rate_nonneg _ _), round2_le_100 (rate_le_100 _ _ hple)⟩
  refine ⟨by rw [hp, hf, ht], hbounds.1, hbounds.2, ?_, ?_⟩
  · have hiff := round2_rate95_iff st.checks_passed
      (st.checks_passed + st.checks_failed) hne h13 hple
    rw [hr, hst]
    constructor
    · intro hstat
      by_contra hnot
      have hrate : ¬ (95 : ℚ) ≤ ((st.checks_passed : ℚ) /
          ((st.checks_passed + st.checks_failed : Nat) : ℚ)) * 100 :=
        fun hc => hnot (hiff.mpr hc)
      rw [if_neg hrate] at hstat
      exact absurd hstat (by decide)
    · intro hrnd
      rw [if_pos (hiff.mp hrnd)]
  · intro st' m
    exact ⟨by simp [_log_check], by simp [_log_check]⟩

theorem c2_summary_invariants_witness :
    goodSummary.passed + goodSummary.failed = goodSummary.total_checks ∧
    (0 : ℚ) ≤ goodSummary.success_rate ∧ goodSummary.success_rate ≤ 100 ∧
    (goodSummary.status = "PASS" ↔ (95 : ℚ) ≤ goodSummary.success_rate) ∧
    (∀ st m, (_log_check st Status.WARN m).checks_passed = st.checks_passed + 1 ∧
      (_log_check st Status.WARN m).checks_failed = st.checks_failed) :=
  c2_summary_invariants initState goodDf goodSummary rfl

/-- C9: on every summary `validate_all` returns, the battery counted at
most 13 checks, and `status = "PASS"` exactly when `failed = 0`: one
failure caps the rate at (12/13)·100 < 95, and with no failures the rate
is 100. -/
theorem c9_pass_iff_zero_failed (st₀ : CheckerState) (df : DataFrame) (s : Summary)
    (h : validate_all st₀ df = Except.ok s) :
    s.total_checks ≤ 13 ∧ (s.status = "PASS" ↔ s.failed = 0) := by
  obtain ⟨st, hrb, hne, ht, hp, hf, hr, hst, -⟩ := validate_all_ok_inv st₀ df s h
  have h13 : totalOf st ≤ 13 :=
    runBattery_ok_total df st hrb (by unfold totalOf; omega)
  unfold totalOf at h13
  refine ⟨by rw [ht]; exact h13, ?_⟩
  rw [hst, hf]
  split
  · rename_i hcond
    have hle := (rate95_iff st.checks_passed
      (st.checks_passed + st.checks_failed) hne).mp hcond
    constructor
    · intro _
      omega
    · intro _
      rfl
  · rename_i hcond
    have hlt : ¬ 95 * (st.checks_passed + st.checks_failed) ≤
        100 * st.checks_passed :=
      fun hh => hcond ((rate95_iff st.checks_passed
        (st.checks_passed + st.checks_failed) hne).mpr hh)
    constructor
    · intro hFP
      exact absurd hFP (by decide)
    · intro hf0
      exfalso
      omega

theorem c9_pass_iff_zero_failed_witness :
    goodSummary.total_checks ≤ 13 ∧
    (goodSummary.status = "PASS" ↔ goodSummary.failed = 0) :=
  c9_pass_iff_zero_failed initState goodDf goodSummary rfl

/-- C4 counterexample: the empty frame satisfies every good-data
condition vacuously (no columns, hence no nulls, no duplicates, no
out-of-range values, no bad dates), yet `validate_all` raises
`ZeroDivisionError` (`checks_passed / 0` on Python ints) instead of
returning a summary with status PASS and rate 100. -/
theorem c4_counterexample :
    goodData emptyDf = true ∧
    validate_all initState emptyDf = Except.error PyError.zeroDivisionError ∧
    ¬ ∃ s, validate_all initState emptyDf = Except.ok s ∧
      s.status = "PASS" ∧ s.success_rate = 100 := by
  refine ⟨rfl, rfl, ?_⟩
  rintro ⟨s, hs, -, -⟩
  have h0 : validate_all initState emptyDf =
      Except.error PyError.zeroDivisionError := rfl
  rw [h0] at hs
  cases hs

/-- C4 amended: for every dataset satisfying the good-data conditions
(zero nulls in present critical columns, zero duplicate keys,
non-negative numerics inside the plausibility bounds, standard warehouse
values, valid and ordered dates), WHENEVER `validate_all` returns a
summary at all (it raises `ZeroDivisionError` when no battery column is
present, so zero checks run), that summary has `status = "PASS"` and
`success_rate = 100.0`. -/
theorem c4_good_data_pass (st₀ : CheckerState) (df : DataFrame) (s : Summary)
    (hg : goodData df = true) (h : validate_all st₀ df = Except.ok s) :
    s.status = "PASS" ∧ s.success_rate = 100 := by
  obtain ⟨st, hrb, hne, ht, hp, hf, hr, hst, -⟩ := validate_all_ok_inv st₀ df s h
  have hfz : st.checks_failed = 0 := runBattery_good df st hg hrb
  have hpz : st.checks_passed ≠ 0 := by omega
  have hrate : ((st.checks_passed : ℚ) /
      ((st.checks_passed + st.checks_failed : Nat) : ℚ)) * 100 = 100 := by
    rw [hfz]
    have hcast : ((st.checks_passed + 0 : Nat) : ℚ) = (st.checks_passed : ℚ) := by
      norm_num
    rw [hcast, div_self (by exact_mod_cast hpz)]
    norm_num
  constructor
  · rw [hst, hrate, if_pos (by norm_num : (95 : ℚ) ≤ 100)]
  · rw [hr, hrate]
    norm_num [round2]

theorem c4_good_data_pass_witness :
    goodData goodDf = true ∧
    goodSummary.status = "PASS" ∧ goodSummary.success_rate = 100 :=
  ⟨rfl, c4_good_data_pass initState goodDf goodSummary rfl rfl⟩

theorem except_bind_error {e a b : Type} (x : e) (f : a → Except e b) :
    (Except.error x >>= f) = Except.error x := rfl

theorem except_bind_ok {e a b : Type} (v : a) (f : a → Except e b) :
    (Except.ok v >>= f) = f v := rfl

/-- C6: every report `create_expectation_suite` returns has
`success = false` iff at least one of its expectations has
`success = false` (it is the AND over all five), and its `success_percent`
equals exactly `100 * successful_expectations / evaluated_expectations`. -/
theorem c6_suite_report_consistency (df : DataFrame) (r : SuiteReport)
    (h : create_expectation_suite df = Except.ok r) :
    (r.success = false ↔ ∃ x ∈ r.results, x.success = false) ∧
    r.success_percent =
      100 * (r.successful_expectations : ℚ) / (r.evaluated_expectations : ℚ) := by
  unfold create_expectation_suite at h
  rcases h1 : _expect_column_values_to_not_be_null df "product_id" with e | e1
  · rw [h1] at h
    rw [except_bind_error] at h
    cases h
  simp only [h1, except_bind_ok] at h
  rcases h2 : _expect_column_values_to_not_be_null df "quantity" with e | e2
  · rw [h2] at h
    rw [except_bind_error] at h
    cases h
  simp only [h2, except_bind_ok] at h
  rcases h3 : _expect_column_values_to_be_between df "quantity" 0 1000000 with e | e3
  · rw [h3] at h
    rw [except_bind_error] at h
    cases h
  simp only [h3, except_bind_ok] at h
  rcases h4 : _expect_column_values_to_be_between df "unit_price" 0 100000 with e | e4
  · rw [h4] at h
    rw [except_bind_error] at h
    cases h
  simp only [h4, except_bind_ok] at h
  rcases h5 : _expect_column_values_to_be_unique df "batch_number" with e | e5
  · rw [h5] at h
    rw [except_bind_error] at h
    cases h
  simp only [h5, except_bind_ok] at h
  simp only [Except.ok.injEq] at h
  subst h
  constructor
  · cases hs1 : e1.success <;> cases hs2 : e2.success <;> cases hs3 : e3.success <;>
      cases hs4 : e4.success <;> cases hs5 : e5.success <;>
      simp [hs1, hs2, hs3, hs4, hs5]
  · simp
    ring

theorem c6_suite_report_consistency_witness :
    (goodSuite.success = false ↔ ∃ x ∈ goodSuite.results, x.success = false) ∧
    goodSuite.success_percent =
      100 * (goodSuite.successful_expectations : ℚ) /
        (goodSuite.evaluated_expectations : ℚ) :=
  c6_suite_report_consistency goodDf goodSuite rfl

/-- C7: the combined report of `run_quality_checks_task` has
`overall_status = "PASS"` iff both the checker summary's status is PASS
and the expectation suite's success is true; when the combined status is
FAIL the task raises `ValueError` (pipeline stop), and when it is PASS
the task returns the combined report. -/
theorem c7_combined_gating (df : DataFrame) (basic : Summary) (ge : SuiteReport)
    (hb : validate_all initState df = Except.ok basic)
    (hg : create_expectation_suite df = Except.ok ge) :
    (combinedStatus basic ge = "PASS" ↔
      (basic.status = "PASS" ∧ ge.success = true)) ∧
    (combinedStatus basic ge = "FAIL" →
      run_quality_checks_task df = Except.error PyError.valueError) ∧
    (combinedStatus basic ge = "PASS" →
      run_quality_checks_task df = Except.ok ⟨basic, ge, "PASS"⟩) := by
  have hiff : combinedStatus basic ge = "PASS" ↔
      (basic.status = "PASS" ∧ ge.success = true) := by
    unfold combinedStatus
    split
    · rename_i hcond
      simp [hcond]
    · rename_i hcond
      constructor
      · intro hq
        exact absurd hq (by decide)
      · intro hq
        exact absurd hq hcond
  refine ⟨hiff, ?_, ?_⟩
  · intro hF
    unfold run_quality_checks_task
    simp only [hb, hg, except_bind_ok]
    rw [hF, if_pos rfl]
  · intro hP
    unfold run_quality_checks_task
    simp only [hb, hg, except_bind_ok]
    rw [hP, if_neg (by decide)]

theorem c7_combined_gating_witness :
    (combinedStatus goodSummary goodSuite = "PASS" ↔
      (goodSummary.status = "PASS" ∧ goodSuite.success = true)) ∧
    (combinedStatus goodSummary goodSuite = "FAIL" →
      run_quality_checks_task goodDf = Except.error PyError.valueError) ∧
    (combinedStatus goodSummary goodSuite = "PASS" →
      run_quality_checks_task goodDf =
        Except.ok ⟨goodSummary, goodSuite, "PASS"⟩) :=
  c7_combined_gating goodDf goodSummary goodSuite rfl rfl

theorem quantityRangeRule_passed_mono (df : DataFrame) (st : CheckerState) :
    st.checks_passed ≤ (quantityRangeRule df st).checks_passed := by
  unfold quantityRangeRule
  split
  · exact le_refl _
  · dsimp only
    split <;> simp [log_check_passed]

/-- C8: on every dataset whose `unit_price` column contains a value 0,
the accuracy price-range rule emits a WARN result (never FAIL — the
accuracy rules cannot increment `checks_failed`), and that WARN is
counted toward `checks_passed` in the aggregate tallies. -/
theorem c8_zero_price_warns (st : CheckerState) (df : DataFrame) (l : List Cell)
    (hl : df.getCol "unit_price" = some l)
    (hz : ∃ c ∈ l, cellEqNum c 0 = true) :
    (_check_accuracy st df).checks_failed = st.checks_failed ∧
    st.checks_passed < (_check_accuracy st df).checks_passed ∧
    ∃ n, 1 ≤ n ∧ CheckResult.mk Status.WARN
      ("Accuracy: " ++ toString n ++ " prices are suspicious (0 or >100k)")
      ∈ (_check_accuracy st df).results := by
  obtain ⟨c, hc, hcz⟩ := hz
  have hmem : c ∈ l.filter (fun x => cellEqNum x 0 || cellGtNum x 100000) :=
    List.mem_filter.mpr ⟨hc, by simp [hcz]⟩
  have hcnt : suspiciousCount 100000 l ≠ 0 := by
    have := List.length_pos_of_mem hmem
    unfold suspiciousCount
    omega
  have hprice : ∀ s', priceRangeRule df s' = _log_check s' Status.WARN
      ("Accuracy: " ++ toString (suspiciousCount 100000 l) ++
        " prices are suspicious (0 or >100k)") := by
    intro s'
    unfold priceRangeRule
    rw [hl]
    dsimp only
    rw [if_neg hcnt]
  refine ⟨accuracy_failed st df, ?_, ?_⟩
  · unfold _check_accuracy
    rw [hprice, log_check_passed]
    have := quantityRangeRule_passed_mono df st
    simp
    omega
  · refine ⟨suspiciousCount 100000 l, by omega, ?_⟩
    unfold _check_accuracy
    rw [hprice, log_check_results]
    exact List.mem_append_right _ (by simp)

theorem c8_zero_price_warns_witness :
    (_check_accuracy initState c8df).checks_failed = initState.checks_failed ∧
    initState.checks_passed < (_check_accuracy initState c8df).checks_passed ∧
    ∃ n, 1 ≤ n ∧ CheckResult.mk Status.WARN
      ("Accuracy: " ++ toString n ++ " prices are suspicious (0 or >100k)")
      ∈ (_check_accuracy initState c8df).results :=
  c8_zero_price_warns initState c8df [Cell.num 0, Cell.num 5] rfl
    ⟨Cell.num 0, by decide, by decide⟩
